import Mathlib

/-!
Verification of the astronomy-starter-kit synthetic data generators.

Shallow embedding of the three Python source files:
* `src/Scripts/foundation_dashboard.py` — `FoundationDashboard._generate_data`
* `src/Scripts/visual_foundations.py` — `VisualFoundations.create_sample_data`,
  `VisualFoundations.learning_dashboard_data`
* `src/Scripts/test_foundation.py` — `TestResults` bookkeeping, `run_all_tests`, `main`

NumPy arrays of reals become `List ℝ`; the pseudo-random draws
(`np.random.random`, `np.random.randn`) are modelled as explicit streams
`rand randn : ℕ → ℝ` passed to the generator, so one call of the Python
function corresponds to one choice of streams.  All real arithmetic is exact
(ideal reals); the single place where IEEE-754 special values matter — the
`blackbody` branch, which evaluates `0.0 ** -5` — is additionally modelled by
the `FloatVal` type carrying `inf`/`nan`.
-/

open Real

namespace AstroKit

/-- `np.linspace(0, 10, n)`, value at index `i`.  NumPy returns `[0.]` for
`n = 1`, and `0 + i * 10/(n-1)` (endpoint included) otherwise. -/
noncomputable def xval (n i : ℕ) : ℝ :=
  if n = 1 then 0 else 10 * i / ((n : ℝ) - 1)

/-- `x = np.linspace(0, 10, n_points)` as a list. -/
noncomputable def linspace (n : ℕ) : List ℝ :=
  (List.range n).map (xval n)

/-! ### Dashboard generator (`foundation_dashboard.py`, `_generate_data`) -/

/-- Dashboard `'sine'` branch: `y = np.sin(x) + noise_level * np.random.random(n_points)`. -/
noncomputable def dashSineY (n : ℕ) (noise : ℝ) (rand : ℕ → ℝ) : List ℝ :=
  (List.range n).map (fun i => Real.sin (xval n i) + noise * rand i)

/-- Dashboard `'exponential'` branch: `y = np.exp(-x / 3) + noise_level * 0.5 * random`. -/
noncomputable def dashExponentialY (n : ℕ) (noise : ℝ) (rand : ℕ → ℝ) : List ℝ :=
  (List.range n).map (fun i => Real.exp (-(xval n i) / 3) + noise * 0.5 * rand i)

/-- Dashboard `'spectrum'` branch: continuum `1 + 0.1*sin(5x) + noise*0.5*random`
minus three Gaussian absorption dips, centers `[2.5, 5.0, 7.5]`,
depths `[0.25, 0.15, 0.20]`, common width parameter `0.15`. -/
noncomputable def dashSpectrumY (n : ℕ) (noise : ℝ) (rand : ℕ → ℝ) : List ℝ :=
  (List.range n).map (fun i =>
    1 + 0.1 * Real.sin (5 * xval n i) + noise * 0.5 * rand i
      - 0.25 * Real.exp (-(xval n i - 2.5) ^ 2 / 0.15)
      - 0.15 * Real.exp (-(xval n i - 5.0) ^ 2 / 0.15)
      - 0.20 * Real.exp (-(xval n i - 7.5) ^ 2 / 0.15))

/-- Dashboard `'lightcurve'` branch:
`y = 1 + (-0.01*x) + 0.08*sin(2*pi*x/2.5) + noise_level*0.2*random`. -/
noncomputable def dashLightcurveY (n : ℕ) (noise : ℝ) (rand : ℕ → ℝ) : List ℝ :=
  (List.range n).map (fun i =>
    1 + (-0.01 * xval n i) + 0.08 * Real.sin (2 * π * xval n i / 2.5)
      + noise * 0.2 * rand i)

/-- Dashboard `'transit'` branch: baseline `1`, depth `0.015` on
`|x - 5.0| < 1.5/2`, plus half-depth corrections on the ingress window
`(5 - 1.5/2 - 0.3, 5 - 1.5/2 + 0.1)` and the egress window
`(5 + 1.5/2 - 0.1, 5 + 1.5/2 + 0.3)`, plus `noise_level * 0.1 * random`. -/
noncomputable def dashTransitY (n : ℕ) (noise : ℝ) (rand : ℕ → ℝ) : List ℝ :=
  (List.range n).map (fun i =>
    1 - (if |xval n i - 5.0| < 1.5 / 2 then 0.015 else 0)
      - (if xval n i > 5.0 - 1.5 / 2 - 0.3 ∧ xval n i < 5.0 - 1.5 / 2 + 0.1
         then 0.015 * 0.5 else 0)
      - (if xval n i > 5.0 + 1.5 / 2 - 0.1 ∧ xval n i < 5.0 + 1.5 / 2 + 0.3
         then 0.015 * 0.5 else 0)
      + noise * 0.1 * rand i)

/-- Dashboard `else` branch (comment in the source: "random walk"):
`y = np.cumsum(np.random.randn(n_points) * 0.3); y += noise_level * random`. -/
noncomputable def dashRandomWalkY (n : ℕ) (noise : ℝ) (rand randn : ℕ → ℝ) : List ℝ :=
  (List.range n).map (fun i =>
    (∑ j ∈ Finset.range (i + 1), randn j * 0.3) + noise * rand i)

/-- `FoundationDashboard._generate_data(data_type, n_points, noise_level)`:
returns the pair `(x, y)`.  The dispatch mirrors the `if/elif/else` chain of
the source; any unrecognized `data_type` reaches the final `else` branch. -/
noncomputable def generateData (data_type : String) (n : ℕ) (noise : ℝ)
    (rand randn : ℕ → ℝ) : List ℝ × List ℝ :=
  (linspace n,
    if data_type = "sine" then dashSineY n noise rand
    else if data_type = "exponential" then dashExponentialY n noise rand
    else if data_type = "spectrum" then dashSpectrumY n noise rand
    else if data_type = "lightcurve" then dashLightcurveY n noise rand
    else if data_type = "transit" then dashTransitY n noise rand
    else dashRandomWalkY n noise rand randn)

/-! ### Library generator (`visual_foundations.py`, `create_sample_data`) -/

/-- Library `'sine'` branch: `y = np.sin(x) + noise_level * np.random.random(n_points)`. -/
noncomputable def libSineY (n : ℕ) (noise : ℝ) (rand : ℕ → ℝ) : List ℝ :=
  (List.range n).map (fun i => Real.sin (xval n i) + noise * rand i)

/-- Library `'exponential'` branch: `y = np.exp(-x / 3) + noise_level * 0.5 * random`. -/
noncomputable def libExponentialY (n : ℕ) (noise : ℝ) (rand : ℕ → ℝ) : List ℝ :=
  (List.range n).map (fun i => Real.exp (-(xval n i) / 3) + noise * 0.5 * rand i)

/-- Library `'spectrum'` branch: same continuum as the dashboard but with
per-line widths `[0.1, 0.15, 0.12]` for the three absorption dips. -/
noncomputable def libSpectrumY (n : ℕ) (noise : ℝ) (rand : ℕ → ℝ) : List ℝ :=
  (List.range n).map (fun i =>
    1 + 0.1 * Real.sin (5 * xval n i) + noise * 0.5 * rand i
      - 0.25 * Real.exp (-(xval n i - 2.5) ^ 2 / 0.1)
      - 0.15 * Real.exp (-(xval n i - 5.0) ^ 2 / 0.15)
      - 0.20 * Real.exp (-(xval n i - 7.5) ^ 2 / 0.12))

/-- Library `'lightcurve'` branch: periodic amplitude `0.05` (dashboard uses `0.08`). -/
noncomputable def libLightcurveY (n : ℕ) (noise : ℝ) (rand : ℕ → ℝ) : List ℝ :=
  (List.range n).map (fun i =>
    1 + (-0.01 * xval n i) + 0.05 * Real.sin (2 * π * xval n i / 2.5)
      + noise * 0.2 * rand i)

/-- Library `'transit'` branch: depth `0.02`, ingress window
`(5 - 1.5/2 - 0.2, 5 - 1.5/2 + 0.2)`, egress window
`(5 + 1.5/2 - 0.2, 5 + 1.5/2 + 0.2)`, plus `noise_level * 0.1 * random`. -/
noncomputable def libTransitY (n : ℕ) (noise : ℝ) (rand : ℕ → ℝ) : List ℝ :=
  (List.range n).map (fun i =>
    1 - (if |xval n i - 5.0| < 1.5 / 2 then 0.02 else 0)
      - (if xval n i > 5.0 - 1.5 / 2 - 0.2 ∧ xval n i < 5.0 - 1.5 / 2 + 0.2
         then 0.02 * 0.5 else 0)
      - (if xval n i > 5.0 + 1.5 / 2 - 0.2 ∧ xval n i < 5.0 + 1.5 / 2 + 0.2
         then 0.02 * 0.5 else 0)
      + noise * 0.1 * rand i)

/-- `np.max` of a list of reals (the source only applies it to nonempty data). -/
noncomputable def listMax : List ℝ → ℝ
  | [] => 0
  | h :: t => t.foldl max h

/-- Library `'blackbody'` branch before normalization:
`y = (x ** -5) / (np.exp(1.0 / (x + 0.1)) - 1)`, read in exact real
arithmetic (Lean's convention `0 ^ (-5 : ℤ) = 0`; the IEEE-754 behaviour of
the same expression is modelled separately by `libBlackbodyFloat`). -/
noncomputable def libBlackbodyRaw (n : ℕ) : List ℝ :=
  (List.range n).map (fun i =>
    xval n i ^ (-5 : ℤ) / (Real.exp (1 / (xval n i + 0.1)) - 1))

/-- Library `'blackbody'` branch: raw curve max-normalized
(`y = y / np.max(y)`), then `y += noise_level * 0.05 * random`. -/
noncomputable def libBlackbodyY (n : ℕ) (noise : ℝ) (rand : ℕ → ℝ) : List ℝ :=
  (List.range n).map (fun i =>
    (xval n i ^ (-5 : ℤ) / (Real.exp (1 / (xval n i + 0.1)) - 1))
        / listMax (libBlackbodyRaw n)
      + noise * 0.05 * rand i)

/-- IEEE-754-style value: a finite real, `+inf`, `-inf` or `NaN`.  Used to
model the `blackbody` branch, where NumPy evaluates `0.0 ** -5` to `+inf`
(a float divide-by-zero) rather than raising. -/
inductive FloatVal where
  | fin (r : ℝ)
  | pinf
  | ninf
  | nan

/-- IEEE division of a special value by an ordinary real
(`inf / c = ±inf`, `r / 0 = ±inf` or `NaN`, finite otherwise). -/
noncomputable def FloatVal.divR : FloatVal → ℝ → FloatVal
  | .nan, _ => .nan
  | .pinf, c => if c < 0 then .ninf else .pinf
  | .ninf, c => if c < 0 then .pinf else .ninf
  | .fin r, c =>
      if c = 0 then (if r = 0 then .nan else if 0 < r then .pinf else .ninf)
      else .fin (r / c)

/-- IEEE division of two values (`inf / inf = NaN`, `r / inf = 0`, `NaN` absorbs). -/
noncomputable def FloatVal.div : FloatVal → FloatVal → FloatVal
  | .nan, _ => .nan
  | _, .nan => .nan
  | .pinf, .pinf => .nan
  | .pinf, .ninf => .nan
  | .ninf, .pinf => .nan
  | .ninf, .ninf => .nan
  | .pinf, .fin c => if c < 0 then .ninf else .pinf
  | .ninf, .fin c => if c < 0 then .pinf else .ninf
  | .fin _, .pinf => .fin 0
  | .fin _, .ninf => .fin 0
  | .fin r, .fin c =>
      if c = 0 then (if r = 0 then .nan else if 0 < r then .pinf else .ninf)
      else .fin (r / c)

/-- IEEE addition of an ordinary real to a value. -/
noncomputable def FloatVal.addR : FloatVal → ℝ → FloatVal
  | .fin r, c => .fin (r + c)
  | .pinf, _ => .pinf
  | .ninf, _ => .ninf
  | .nan, _ => .nan

/-- `np.max`-style pairwise maximum: `NaN` propagates, `+inf` dominates. -/
noncomputable def FloatVal.fmax : FloatVal → FloatVal → FloatVal
  | .nan, _ => .nan
  | _, .nan => .nan
  | .pinf, _ => .pinf
  | _, .pinf => .pinf
  | .ninf, w => w
  | v, .ninf => v
  | .fin r, .fin s => .fin (max r s)

/-- `x ** -5` on NumPy float arrays: `0.0 ** -5` signals a divide-by-zero and
yields `+inf`; a positive argument gives the finite value `(x^5)⁻¹`. -/
noncomputable def powNeg5 (x : ℝ) : FloatVal :=
  if x = 0 then .pinf else .fin (x ^ (-5 : ℤ))

/-- The library `'blackbody'` branch under IEEE-754 semantics:
`y = (x ** -5) / (np.exp(1.0 / (x + 0.1)) - 1); y = y / np.max(y);
y += noise_level * 0.05 * random`. -/
noncomputable def libBlackbodyFloat (n : ℕ) (noise : ℝ) (rand : ℕ → ℝ) : List FloatVal :=
  let raw := (List.range n).map (fun i =>
    (powNeg5 (xval n i)).divR (Real.exp (1 / (xval n i + 0.1)) - 1))
  let m := match raw with
    | [] => FloatVal.nan
    | h :: t => t.foldl FloatVal.fmax h
  raw.mapIdx (fun i v => (v.div m).addR (noise * 0.05 * rand i))

/-- Library `else` branch (`'random'` or `'linear'`):
`y = 0.5 * x + noise_level * np.random.random(n_points)`. -/
noncomputable def libLinearY (n : ℕ) (noise : ℝ) (rand : ℕ → ℝ) : List ℝ :=
  (List.range n).map (fun i => 0.5 * xval n i + noise * rand i)

/-- `VisualFoundations.create_sample_data(data_type, n_points, noise_level)`:
returns `(x, y, title)`; the dispatch mirrors the `if/elif/else` chain and any
unrecognized `data_type` reaches the final `else` (linear) branch. -/
noncomputable def createSampleData (data_type : String) (n : ℕ) (noise : ℝ)
    (rand : ℕ → ℝ) : List ℝ × List ℝ × String :=
  (linspace n,
    if data_type = "sine" then (libSineY n noise rand, "Sample Sine Wave Data")
    else if data_type = "exponential" then
      (libExponentialY n noise rand, "Sample Exponential Decay")
    else if data_type = "spectrum" then
      (libSpectrumY n noise rand, "Sample Astronomical Spectrum")
    else if data_type = "lightcurve" then
      (libLightcurveY n noise rand, "Sample Light Curve")
    else if data_type = "transit" then
      (libTransitY n noise rand, "Sample Exoplanet Transit")
    else if data_type = "blackbody" then
      (libBlackbodyY n noise rand, "Sample Blackbody Spectrum")
    else (libLinearY n noise rand, "Sample Linear Data"))

/-- The `data_types` list iterated by `learning_dashboard_data`. -/
def lddOrder : List String :=
  ["sine", "exponential", "spectrum", "lightcurve", "transit", "blackbody"]

/-- `VisualFoundations.learning_dashboard_data(n_points)`: calls
`create_sample_data(dtype, n_points)` (default `noise_level = 0.1`) for each
entry of `lddOrder`, renames the key `'sine'` to `'sine_wave'`, and stores the
`(x, y)` pair (dropping the title).  Each call consumes its own random stream
`rands k`.  The Python dict is modelled as the association list in insertion
order. -/
noncomputable def learningDashboardData (n : ℕ) (rands : ℕ → ℕ → ℝ) :
    List (String × (List ℝ × List ℝ)) :=
  lddOrder.enum.map (fun p =>
    ((if p.2 = "sine" then "sine_wave" else p.2),
      ((createSampleData p.2 n 0.1 (rands p.1)).1,
       (createSampleData p.2 n 0.1 (rands p.1)).2.1)))

/-! ### Diagnostic script (`test_foundation.py`) -/

/-- The four statuses of `TestResult` (`PASS`/`FAIL`/`WARN`/`SKIP`). -/
inductive TestStatus where
  | pass
  | fail
  | warn
  | skip
deriving DecidableEq

/-- A recorded test result (`TestResult`); only the fields relevant to the
exit-code logic are kept. -/
structure TestResult where
  name : String
  status : TestStatus
  message : String

/-- `TestResults.failed`: `sum(1 for r in self.results if r.status == FAIL)`. -/
def failedCount (rs : List TestResult) : ℕ :=
  (rs.filter (fun r => r.status = TestStatus.fail)).length

/-- `run_all_tests` final line: `return 0 if failed == 0 else 1`.  The visual
test is wrapped in `try/except` and records nothing, so the exit code depends
only on the recorded results. -/
def runAllTestsExit (rs : List TestResult) : ℕ :=
  if failedCount rs = 0 then 0 else 1

/-- `main`: `sys.exit(run_all_tests(...))` — it forwards the return value. -/
def mainExit (rs : List TestResult) : ℕ :=
  runAllTestsExit rs

/-! ### Helper lemmas -/

/-- Indexing a mapped range list. -/
lemma getD_map_range (f : ℕ → ℝ) {n i : ℕ} (hi : i < n) :
    ((List.range n).map f).getD i 0 = f i := by
  simp [List.getD_eq_getElem?_getD, List.getElem?_map, List.getElem?_range hi]

/-- The grid of `np.linspace(0, 10, n)` for `n ≥ 2`: strictly increasing,
starts at `0`, ends at `10`. -/
lemma linspace_spec {n : ℕ} (hn : 2 ≤ n) :
    (linspace n).Pairwise (· < ·) ∧ (linspace n).head? = some 0 ∧
      (linspace n).getLast? = some 10 := by
  have hne : n ≠ 1 := by omega
  have hpos : (0 : ℝ) < (n : ℝ) - 1 := by
    have h2 : (2 : ℝ) ≤ (n : ℝ) := by exact_mod_cast hn
    linarith
  refine ⟨?_, ?_, ?_⟩
  · refine List.Pairwise.map (xval n) ?_ (List.pairwise_lt_range n)
    intro i j hij
    unfold xval
    rw [if_neg hne, if_neg hne]
    have hij' : (i : ℝ) < (j : ℝ) := by exact_mod_cast hij
    have h10 : (10 : ℝ) * i < 10 * j := by linarith
    exact div_lt_div_of_pos_right h10 hpos
  · obtain ⟨m, rfl⟩ : ∃ m, n = m + 2 := ⟨n - 2, by omega⟩
    rw [linspace, List.head?_map]
    have : (List.range (m + 2)).head? = some 0 := by
      rw [List.range_succ_eq_map]
      rfl
    rw [this]
    simp only [Option.map_some']
    unfold xval
    rw [if_neg hne]
    norm_num
  · obtain ⟨m, rfl⟩ : ∃ m, n = m + 2 := ⟨n - 2, by omega⟩
    rw [linspace, show m + 2 = (m + 1) + 1 from rfl, List.range_succ, List.map_append]
    simp only [List.map_cons, List.map_nil, List.getLast?_concat]
    unfold xval
    rw [if_neg hne]
    have hden : ((m : ℝ) + 1 + 1) - 1 ≠ 0 := by
      have : (0 : ℝ) ≤ (m : ℝ) := Nat.cast_nonneg m
      intro h; linarith [h]
    congr 1
    push_cast
    field_simp

/-! ### Claim theorems -/

/-- C1: for every `data_type` and every `n_points ≥ 1` (indeed any `n`), both
the dashboard's `_generate_data` and the library's `create_sample_data` return
sequences with `len(x) = len(y) = n_points`. -/
theorem C1_generator_lengths (data_type : String) (n : ℕ) (hn : 1 ≤ n)
    (noise : ℝ) (rand randn : ℕ → ℝ) :
    (generateData data_type n noise rand randn).1.length = n ∧
    (generateData data_type n noise rand randn).2.length = n ∧
    (createSampleData data_type n noise rand).1.length = n ∧
    (createSampleData data_type n noise rand).2.1.length = n := by
  refine ⟨by simp [generateData, linspace], ?_, by simp [createSampleData, linspace], ?_⟩
  · unfold generateData
    dsimp only
    repeat' split
    all_goals
      simp [dashSineY, dashExponentialY, dashSpectrumY, dashLightcurveY,
        dashTransitY, dashRandomWalkY]
  · unfold createSampleData
    dsimp only
    repeat' split
    all_goals
      simp [libSineY, libExponentialY, libSpectrumY, libLightcurveY,
        libTransitY, libBlackbodyY, libLinearY]

/-- C1 witness at `data_type = "sine"`, `n = 3`. -/
theorem C1_generator_lengths_witness :
    (generateData "sine" 3 0 (fun _ => 0) (fun _ => 0)).1.length = 3 ∧
    (generateData "sine" 3 0 (fun _ => 0) (fun _ => 0)).2.length = 3 ∧
    (createSampleData "sine" 3 0 (fun _ => 0)).1.length = 3 ∧
    (createSampleData "sine" 3 0 (fun _ => 0)).2.1.length = 3 :=
  C1_generator_lengths "sine" 3 (by norm_num) 0 (fun _ => 0) (fun _ => 0)

/-- C7: for every `data_type` and `n_points ≥ 2`, the returned `x` sequence is
strictly increasing, starts at exactly `0` and ends at exactly `10`, in both
generators. -/
theorem C7_x_strictly_increasing (data_type : String) (n : ℕ) (hn : 2 ≤ n)
    (noise : ℝ) (rand randn : ℕ → ℝ) :
    ((generateData data_type n noise rand randn).1.Pairwise (· < ·) ∧
      (generateData data_type n noise rand randn).1.head? = some 0 ∧
      (generateData data_type n noise rand randn).1.getLast? = some 10) ∧
    ((createSampleData data_type n noise rand).1.Pairwise (· < ·) ∧
      (createSampleData data_type n noise rand).1.head? = some 0 ∧
      (createSampleData data_type n noise rand).1.getLast? = some 10) := by
  have h := linspace_spec hn
  exact ⟨h, h⟩

/-- C7 witness at `data_type = "sine"`, `n = 2`. -/
theorem C7_x_strictly_increasing_witness :
    (generateData "sine" 2 0 (fun _ => 0) (fun _ => 0)).1.Pairwise (· < ·) ∧
    (generateData "sine" 2 0 (fun _ => 0) (fun _ => 0)).1.head? = some 0 ∧
    (generateData "sine" 2 0 (fun _ => 0) (fun _ => 0)).1.getLast? = some 10 :=
  (C7_x_strictly_increasing "sine" 2 (by norm_num) 0 (fun _ => 0) (fun _ => 0)).1

/-- C9: the diagnostic runner's exit code is `0` iff no recorded result has
`FAIL` status, is otherwise `1`, and appending results with `WARN` status
never changes it; `main` forwards the code to `sys.exit`. -/
theorem C9_exit_code (rs : List TestResult) :
    (mainExit rs = 0 ↔ ∀ r ∈ rs, r.status ≠ TestStatus.fail) ∧
    (mainExit rs = 0 ∨ mainExit rs = 1) ∧
    (∀ ws : List TestResult, (∀ w ∈ ws, w.status = TestStatus.warn) →
      mainExit (rs ++ ws) = mainExit rs) := by
  refine ⟨?_, ?_, ?_⟩
  · by_cases h : failedCount rs = 0
    · simp only [mainExit, runAllTestsExit, if_pos h, true_iff, eq_self_iff_true]
      unfold failedCount at h
      rw [List.length_eq_zero, List.filter_eq_nil_iff] at h
      intro r hr
      have := h r hr
      simpa using this
    · simp only [mainExit, runAllTestsExit, if_neg h]
      constructor
      · intro h1; exact absurd h1 one_ne_zero
      · intro hall
        exact absurd (by
          unfold failedCount
          rw [List.length_eq_zero, List.filter_eq_nil_iff]
          intro r hr
          simpa using hall r hr) h
  · unfold mainExit runAllTestsExit
    split <;> simp
  · intro ws hws
    have hz : failedCount ws = 0 := by
      unfold failedCount
      rw [List.length_eq_zero, List.filter_eq_nil_iff]
      intro w hw
      have := hws w hw
      simp [this]
    unfold mainExit runAllTestsExit failedCount
    rw [List.filter_append, List.length_append]
    unfold failedCount at hz
    rw [hz, Nat.add_zero]

/-- C3 counterexample: with the random-normal stream constantly `1`, the
dashboard output for the unknown type `"foo"` is the random-walk series
`[0.3]`, not the sine series `[0]`; the claim that the dashboard falls back to
`sine` is false. -/
theorem C3_counterexample :
    (generateData "foo" 1 0 (fun _ => 0) (fun _ => 1)).2 ≠
      (generateData "sine" 1 0 (fun _ => 0) (fun _ => 1)).2 := by
  simp [generateData, dashRandomWalkY, dashSineY, xval, Real.sin_zero,
    Finset.sum_range_succ, List.range_succ]
  norm_num

/-- C3 amended: an unrecognized `data_type` does not raise; the dashboard
falls back to its `else` branch, the random-walk series (not the sine
series), and the library falls back to its `else` branch, the linear series. -/
theorem C3_amended_default_branch (data_type : String)
    (hdash : data_type ∉ ["sine", "exponential", "spectrum", "lightcurve", "transit"])
    (hlib : data_type ∉
      ["sine", "exponential", "spectrum", "lightcurve", "transit", "blackbody"])
    (n : ℕ) (noise : ℝ) (rand randn : ℕ → ℝ) :
    (generateData data_type n noise rand randn).2 = dashRandomWalkY n noise rand randn ∧
    (createSampleData data_type n noise rand).2 =
      (libLinearY n noise rand, "Sample Linear Data") := by
  simp only [List.mem_cons, List.mem_singleton, not_or] at hdash hlib
  obtain ⟨d1, d2, d3, d4, d5⟩ := hdash
  obtain ⟨l1, l2, l3, l4, l5, l6⟩ := hlib
  constructor
  · simp [generateData, d1, d2, d3, d4, d5]
  · simp [createSampleData, l1, l2, l3, l4, l5, l6]

/-- C3 amended witness at `data_type = "foo"`, `n = 1`. -/
theorem C3_amended_witness :
    (generateData "foo" 1 0 (fun _ => 0) (fun _ => 1)).2 =
      dashRandomWalkY 1 0 (fun _ => 0) (fun _ => 1) ∧
    (createSampleData "foo" 1 0 (fun _ => 0)).2 =
      (libLinearY 1 0 (fun _ => 0), "Sample Linear Data") :=
  C3_amended_default_branch "foo" (by simp) (by simp) 1 0 (fun _ => 0) (fun _ => 1)

/-- C8 counterexample: sending `data_type = "blackbody"` to the *dashboard*
hits the random-walk `else` branch, so two calls with different random-normal
draws disagree even at `noise_level = 0`; the claim's list of always-
reproducible types is wrong for the dashboard. -/
theorem C8_counterexample :
    (generateData "blackbody" 1 0 (fun _ => 0) (fun _ => 0)).2 ≠
      (generateData "blackbody" 1 0 (fun _ => 0) (fun _ => 1)).2 := by
  simp [generateData, dashRandomWalkY, Finset.sum_range_succ, List.range_succ]
  norm_num

/-- C8 amended: at `noise_level = 0` the library generator is independent of
the random stream for all seven listed types; the dashboard generator is
independent of both streams for its five recognized types; and the
dashboard's `else` (random-walk) branch still depends on the random-normal
stream at `noise_level = 0`. -/
theorem C8_amended_determinism :
    (∀ data_type ∈
        ["sine", "exponential", "spectrum", "lightcurve", "transit", "blackbody", "linear"],
      ∀ (n : ℕ) (rand rand' : ℕ → ℝ),
        createSampleData data_type n 0 rand = createSampleData data_type n 0 rand') ∧
    (∀ data_type ∈ ["sine", "exponential", "spectrum", "lightcurve", "transit"],
      ∀ (n : ℕ) (rand randn rand' randn' : ℕ → ℝ),
        generateData data_type n 0 rand randn = generateData data_type n 0 rand' randn') ∧
    (generateData "random" 1 0 (fun _ => 0) (fun _ => 0)).2 ≠
      (generateData "random" 1 0 (fun _ => 0) (fun _ => 1)).2 := by
  refine ⟨?_, ?_, ?_⟩
  · intro dt hdt n r r'
    fin_cases hdt <;>
      simp [createSampleData, libSineY, libExponentialY, libSpectrumY,
        libLightcurveY, libTransitY, libBlackbodyY, libLinearY]
  · intro dt hdt n r rn r' rn'
    fin_cases hdt <;>
      simp [generateData, dashSineY, dashExponentialY, dashSpectrumY,
        dashLightcurveY, dashTransitY]
  · simp [generateData, dashRandomWalkY, Finset.sum_range_succ, List.range_succ]
    norm_num

/-- C8 amended witness: the library sine series at `n = 2`, `noise = 0` is the
same for two different random streams. -/
theorem C8_amended_witness :
    createSampleData "sine" 2 0 (fun _ => 0) = createSampleData "sine" 2 0 (fun _ => 1) :=
  C8_amended_determinism.1 "sine" (by simp) 2 (fun _ => 0) (fun _ => 1)

/-- C10: `learning_dashboard_data(n_points)` returns exactly the six keys
`sine_wave, exponential, spectrum, lightcurve, transit, blackbody` (in
insertion order), every value is a pair of sequences of length `n_points`,
and the `sine_wave` entry is the `(x, y)` part of
`create_sample_data('sine', n_points)` (title dropped). -/
theorem C10_learning_dashboard (n : ℕ) (hn : 1 ≤ n) (rands : ℕ → ℕ → ℝ) :
    ((learningDashboardData n rands).map Prod.fst =
      ["sine_wave", "exponential", "spectrum", "lightcurve", "transit", "blackbody"]) ∧
    (∀ e ∈ learningDashboardData n rands, e.2.1.length = n ∧ e.2.2.length = n) ∧
    ((learningDashboardData n rands).head? =
      some ("sine_wave",
        ((createSampleData "sine" n 0.1 (rands 0)).1,
         (createSampleData "sine" n 0.1 (rands 0)).2.1))) := by
  refine ⟨?_, ?_, ?_⟩
  · simp [learningDashboardData, lddOrder, List.enum, List.enumFrom]
  · intro e he
    simp only [learningDashboardData, lddOrder, List.enum, List.enumFrom,
      List.map_cons, List.map_nil, List.mem_cons, List.not_mem_nil, or_false] at he
    rcases he with h | h | h | h | h | h <;> subst h <;>
      constructor <;>
      simp [createSampleData, linspace, libSineY, libExponentialY, libSpectrumY,
        libLightcurveY, libTransitY, libBlackbodyY, libLinearY]
  · simp [learningDashboardData, lddOrder, List.enum, List.enumFrom]

/-- C10 witness at `n = 1`. -/
theorem C10_learning_dashboard_witness :
    ((learningDashboardData 1 (fun _ _ => 0)).map Prod.fst =
      ["sine_wave", "exponential", "spectrum", "lightcurve", "transit", "blackbody"]) ∧
    (∀ e ∈ learningDashboardData 1 (fun _ _ => 0), e.2.1.length = 1 ∧ e.2.2.length = 1) ∧
    ((learningDashboardData 1 (fun _ _ => 0)).head? =
      some ("sine_wave",
        ((createSampleData "sine" 1 0.1 (fun _ => 0)).1,
         (createSampleData "sine" 1 0.1 (fun _ => 0)).2.1))) :=
  C10_learning_dashboard 1 (by norm_num) (fun _ _ => 0)

/-- C4 counterexample: at `n_points = 6` the grid contains `x = 4.0`, which is
outside the transit window `|x - 5| < 0.75` but inside the dashboard's ingress
window `(3.95, 4.35)`, so with `noise_level = 0` the dashboard transit value
there is `0.9925`, not the baseline `1`. -/
theorem C4_counterexample :
    ¬ |xval 6 2 - 5.0| < 0.75 ∧
    (generateData "transit" 6 0 (fun _ => 0) (fun _ => 0)).2.getD 2 0 ≠ 1 := by
  have hx : xval 6 2 = 4 := by norm_num [xval]
  constructor
  · rw [hx]; rw [abs_lt]; norm_num
  · have h2 : (2 : ℕ) < 6 := by norm_num
    have hy : (generateData "transit" 6 0 (fun _ => 0) (fun _ => 0)).2 =
        dashTransitY 6 0 (fun _ => 0) := by
      simp [generateData]
    rw [hy]
    unfold dashTransitY
    rw [getD_map_range _ h2, hx]
    rw [if_neg (by rw [abs_lt]; norm_num), if_pos (by norm_num),
      if_neg (by norm_num)]
    norm_num

set_option maxHeartbeats 1600000 in
/-- C4 amended: with `noise_level = 0`, the transit series of each module
equals the baseline `1` only outside the transit window *and* both
ingress/egress windows; inside the window `|x-5| < 0.75` it is `1 - depth`
when outside the ingress/egress windows but `1 - depth - depth/2` when also
inside one of them; and on the parts of the ingress/egress windows outside
the transit window it is `1 - depth/2`.  Depth is `0.015` for the dashboard
(windows `(3.95, 4.35)` and `(5.65, 6.05)`) and `0.02` for the library
(windows `(4.05, 4.45)` and `(5.55, 5.95)`). -/
theorem C4_amended_transit (n : ℕ) (hn : 1 ≤ n) (i : ℕ) (hi : i < n)
    (rand randn : ℕ → ℝ) :
    ((¬ |xval n i - 5.0| < 0.75 →
        ¬ (3.95 < xval n i ∧ xval n i < 4.35) →
        ¬ (5.65 < xval n i ∧ xval n i < 6.05) →
        (generateData "transit" n 0 rand randn).2.getD i 0 = 1) ∧
      (|xval n i - 5.0| < 0.75 →
        ¬ (3.95 < xval n i ∧ xval n i < 4.35) →
        ¬ (5.65 < xval n i ∧ xval n i < 6.05) →
        (generateData "transit" n 0 rand randn).2.getD i 0 = 1 - 0.015) ∧
      (|xval n i - 5.0| < 0.75 →
        ((3.95 < xval n i ∧ xval n i < 4.35) ∨ (5.65 < xval n i ∧ xval n i < 6.05)) →
        (generateData "transit" n 0 rand randn).2.getD i 0 = 1 - 0.015 - 0.0075) ∧
      (¬ |xval n i - 5.0| < 0.75 →
        ((3.95 < xval n i ∧ xval n i < 4.35) ∨ (5.65 < xval n i ∧ xval n i < 6.05)) →
        (generateData "transit" n 0 rand randn).2.getD i 0 = 1 - 0.0075)) ∧
    ((¬ |xval n i - 5.0| < 0.75 →
        ¬ (4.05 < xval n i ∧ xval n i < 4.45) →
        ¬ (5.55 < xval n i ∧ xval n i < 5.95) →
        (createSampleData "transit" n 0 rand).2.1.getD i 0 = 1) ∧
      (|xval n i - 5.0| < 0.75 →
        ¬ (4.05 < xval n i ∧ xval n i < 4.45) →
        ¬ (5.55 < xval n i ∧ xval n i < 5.95) →
        (createSampleData "transit" n 0 rand).2.1.getD i 0 = 1 - 0.02) ∧
      (|xval n i - 5.0| < 0.75 →
        ((4.05 < xval n i ∧ xval n i < 4.45) ∨ (5.55 < xval n i ∧ xval n i < 5.95)) →
        (createSampleData "transit" n 0 rand).2.1.getD i 0 = 1 - 0.02 - 0.01) ∧
      (¬ |xval n i - 5.0| < 0.75 →
        ((4.05 < xval n i ∧ xval n i < 4.45) ∨ (5.55 < xval n i ∧ xval n i < 5.95)) →
        (createSampleData "transit" n 0 rand).2.1.getD i 0 = 1 - 0.01)) := by
  have hdash : (generateData "transit" n 0 rand randn).2.getD i 0 =
      1 - (if |xval n i - 5.0| < 1.5 / 2 then 0.015 else 0)
        - (if xval n i > 5.0 - 1.5 / 2 - 0.3 ∧ xval n i < 5.0 - 1.5 / 2 + 0.1
           then 0.015 * 0.5 else 0)
        - (if xval n i > 5.0 + 1.5 / 2 - 0.1 ∧ xval n i < 5.0 + 1.5 / 2 + 0.3
           then 0.015 * 0.5 else 0) + 0 * 0.1 * rand i := by
    have hy : (generateData "transit" n 0 rand randn).2 = dashTransitY n 0 rand := by
      simp [generateData]
    rw [hy]
    exact getD_map_range _ hi
  have hlib : (createSampleData "transit" n 0 rand).2.1.getD i 0 =
      1 - (if |xval n i - 5.0| < 1.5 / 2 then 0.02 else 0)
        - (if xval n i > 5.0 - 1.5 / 2 - 0.2 ∧ xval n i < 5.0 - 1.5 / 2 + 0.2
           then 0.02 * 0.5 else 0)
        - (if xval n i > 5.0 + 1.5 / 2 - 0.2 ∧ xval n i < 5.0 + 1.5 / 2 + 0.2
           then 0.02 * 0.5 else 0) + 0 * 0.1 * rand i := by
    have hy : (createSampleData "transit" n 0 rand).2.1 = libTransitY n 0 rand := by
      simp [createSampleData]
    rw [hy]
    exact getD_map_range _ hi
  have hw : (1.5 : ℝ) / 2 = 0.75 := by norm_num
  constructor
  · rw [hdash, hw]
    refine ⟨?_, ?_, ?_, ?_⟩
    · intro h1 h2 h3
      rw [if_neg h1,
        if_neg (fun hc => h2 ⟨by linarith [hc.1], by linarith [hc.2]⟩),
        if_neg (fun hc => h3 ⟨by linarith [hc.1], by linarith [hc.2]⟩)]
      norm_num
    · intro h1 h2 h3
      rw [if_pos h1,
        if_neg (fun hc => h2 ⟨by linarith [hc.1], by linarith [hc.2]⟩),
        if_neg (fun hc => h3 ⟨by linarith [hc.1], by linarith [hc.2]⟩)]
      norm_num
    · intro h1 h2
      rcases h2 with hin | heg
      · rw [if_pos h1, if_pos ⟨by linarith [hin.1], by linarith [hin.2]⟩,
          if_neg (fun hc => by linarith [hin.2, hc.1])]
        norm_num
      · rw [if_pos h1, if_neg (fun hc => by linarith [heg.1, hc.2]),
          if_pos ⟨by linarith [heg.1], by linarith [heg.2]⟩]
        norm_num
    · intro h1 h2
      rcases h2 with hin | heg
      · rw [if_neg h1, if_pos ⟨by linarith [hin.1], by linarith [hin.2]⟩,
          if_neg (fun hc => by linarith [hin.2, hc.1])]
        norm_num
      · rw [if_neg h1, if_neg (fun hc => by linarith [heg.1, hc.2]),
          if_pos ⟨by linarith [heg.1], by linarith [heg.2]⟩]
        norm_num
  · rw [hlib, hw]
    refine ⟨?_, ?_, ?_, ?_⟩
    · intro h1 h2 h3
      rw [if_neg h1,
        if_neg (fun hc => h2 ⟨by linarith [hc.1], by linarith [hc.2]⟩),
        if_neg (fun hc => h3 ⟨by linarith [hc.1], by linarith [hc.2]⟩)]
      norm_num
    · intro h1 h2 h3
      rw [if_pos h1,
        if_neg (fun hc => h2 ⟨by linarith [hc.1], by linarith [hc.2]⟩),
        if_neg (fun hc => h3 ⟨by linarith [hc.1], by linarith [hc.2]⟩)]
      norm_num
    · intro h1 h2
      rcases h2 with hin | heg
      · rw [if_pos h1, if_pos ⟨by linarith [hin.1], by linarith [hin.2]⟩,
          if_neg (fun hc => by linarith [hin.2, hc.1])]
        norm_num
      · rw [if_pos h1, if_neg (fun hc => by linarith [heg.1, hc.2]),
          if_pos ⟨by linarith [heg.1], by linarith [heg.2]⟩]
        norm_num
    · intro h1 h2
      rcases h2 with hin | heg
      · rw [if_neg h1, if_pos ⟨by linarith [hin.1], by linarith [hin.2]⟩,
          if_neg (fun hc => by linarith [hin.2, hc.1])]
        norm_num
      · rw [if_neg h1, if_neg (fun hc => by linarith [heg.1, hc.2]),
          if_pos ⟨by linarith [heg.1], by linarith [heg.2]⟩]
        norm_num

/-- C4 amended witness: at `n = 5`, `i = 1` (`x = 2.5`, outside all windows),
the dashboard transit value is the baseline `1`. -/
theorem C4_amended_witness :
    (generateData "transit" 5 0 (fun _ => 0) (fun _ => 0)).2.getD 1 0 = 1 :=
  (C4_amended_transit 5 (by norm_num) 1 (by norm_num) (fun _ => 0) (fun _ => 0)).1.1
    (by rw [show xval 5 1 = 2.5 from by norm_num [xval], abs_lt]; norm_num)
    (by rw [show xval 5 1 = 2.5 from by norm_num [xval]]; rintro ⟨h, -⟩; norm_num at h)
    (by rw [show xval 5 1 = 2.5 from by norm_num [xval]]; rintro ⟨h, -⟩; norm_num at h)

/-- The denominator `np.exp(1.0 / (x + 0.1)) - 1` is positive on the grid. -/
lemma exp_denom_pos {x : ℝ} (hx : 0 ≤ x) : 0 < Real.exp (1 / (x + 0.1)) - 1 := by
  have h1 : (0 : ℝ) < x + 0.1 := by linarith
  have h2 : (0 : ℝ) < 1 / (x + 0.1) := by positivity
  have h3 := Real.add_one_le_exp (1 / (x + 0.1))
  linarith

/-- A Gaussian tail: `exp t ≤ 10⁻³` whenever `t ≤ -40`. -/
lemma exp_le_small {t : ℝ} (ht : t ≤ -40) : Real.exp t ≤ 0.001 := by
  have h1 : Real.exp t ≤ Real.exp (-40) := Real.exp_le_exp.2 ht
  have h2 : (2 : ℝ) ≤ Real.exp 1 :=
    le_of_lt (lt_trans (by norm_num) Real.exp_one_gt_d9)
  have h3 : (2 : ℝ) ^ (40 : ℕ) ≤ Real.exp 1 ^ (40 : ℕ) :=
    pow_le_pow_left₀ (by norm_num) h2 40
  have h4 : Real.exp 1 ^ (40 : ℕ) = Real.exp 40 := by
    rw [← Real.exp_nat_mul]
    norm_num
  have h5 : Real.exp (-40) = (Real.exp 40)⁻¹ := Real.exp_neg 40
  have h6 : (Real.exp 40)⁻¹ ≤ ((2 : ℝ) ^ (40 : ℕ))⁻¹ :=
    inv_anti₀ (by positivity) (h4 ▸ h3)
  calc Real.exp t ≤ Real.exp (-40) := h1
    _ = (Real.exp 40)⁻¹ := h5
    _ ≤ ((2 : ℝ) ^ (40 : ℕ))⁻¹ := h6
    _ ≤ 0.001 := by norm_num

/-- Grid values of `np.linspace(0, 10, 5)`. -/
lemma xval5_0 : xval 5 0 = 0 := by norm_num [xval]

lemma xval5_1 : xval 5 1 = 2.5 := by norm_num [xval]

lemma xval5_2 : xval 5 2 = 5 := by norm_num [xval]

lemma xval5_3 : xval 5 3 = 7.5 := by norm_num [xval]

lemma xval5_4 : xval 5 4 = 10 := by norm_num [xval]

/-- C6 (code bug): at `n_points = 5`, `noise_level = 0`, the library
`blackbody` branch evaluates `0.0 ** -5` at the first grid point `x = 0` — a
float divide-by-zero producing `+inf` — so `np.max(y)` is `+inf` and the
max-normalized first entry is `inf / inf = NaN`: the returned array is not
finite with maximum `1`. -/
theorem C6_blackbody_nan :
    powNeg5 (xval 5 0) = FloatVal.pinf ∧
    (libBlackbodyFloat 5 0 (fun _ => 0)).head? = some FloatVal.nan := by
  have hpow : powNeg5 (xval 5 0) = FloatVal.pinf := by
    rw [xval5_0]
    simp [powNeg5]
  refine ⟨hpow, ?_⟩
  unfold libBlackbodyFloat
  rw [show List.range 5 = [0, 1, 2, 3, 4] from by rfl]
  simp only [List.map_cons, List.map_nil, xval5_0, xval5_1, xval5_2, xval5_3, xval5_4]
  have hpinf : (powNeg5 (0 : ℝ)).divR (Real.exp (1 / ((0 : ℝ) + 0.1)) - 1) =
      FloatVal.pinf := by
    rw [show powNeg5 (0 : ℝ) = FloatVal.pinf from by simp [powNeg5]]
    simp only [FloatVal.divR]
    rw [if_neg (not_lt.2 (le_of_lt (exp_denom_pos le_rfl)))]
  have hfin : ∀ x : ℝ, x ≠ 0 → 0 ≤ x →
      (powNeg5 x).divR (Real.exp (1 / (x + 0.1)) - 1) =
        FloatVal.fin (x ^ (-5 : ℤ) / (Real.exp (1 / (x + 0.1)) - 1)) := by
    intro x hne0 hge
    rw [show powNeg5 x = FloatVal.fin (x ^ (-5 : ℤ)) from by simp [powNeg5, hne0]]
    simp only [FloatVal.divR]
    rw [if_neg (exp_denom_pos hge).ne']
  rw [hpinf, hfin 2.5 (by norm_num) (by norm_num), hfin 5 (by norm_num) (by norm_num),
    hfin 7.5 (by norm_num) (by norm_num), hfin 10 (by norm_num) (by norm_num)]
  simp only [List.foldl_cons, List.foldl_nil, FloatVal.fmax, List.mapIdx_cons,
    FloatVal.div, FloatVal.addR, List.head?_cons]

/-- C5: at `n_points = 5`, `noise_level = 0`, the spectrum grid contains
exactly `x = 2.5, 5, 7.5` (indices 1, 2, 3), and there the output is below
the local continuum `1 + 0.1*sin(5x)` by the configured absorption depth
`0.25 / 0.15 / 0.20` up to `10⁻³` (the neighbouring Gaussian tails), in both
the dashboard (common width `0.15`) and the library (widths `0.1, 0.15,
0.12`). -/
theorem C5_spectrum_depths (rand randn : ℕ → ℝ) :
    |((1 + 0.1 * Real.sin (5 * 2.5)) -
        (generateData "spectrum" 5 0 rand randn).2.getD 1 0) - 0.25| ≤ 0.001 ∧
    |((1 + 0.1 * Real.sin (5 * 5)) -
        (generateData "spectrum" 5 0 rand randn).2.getD 2 0) - 0.15| ≤ 0.001 ∧
    |((1 + 0.1 * Real.sin (5 * 7.5)) -
        (generateData "spectrum" 5 0 rand randn).2.getD 3 0) - 0.20| ≤ 0.001 ∧
    |((1 + 0.1 * Real.sin (5 * 2.5)) -
        (createSampleData "spectrum" 5 0 rand).2.1.getD 1 0) - 0.25| ≤ 0.001 ∧
    |((1 + 0.1 * Real.sin (5 * 5)) -
        (createSampleData "spectrum" 5 0 rand).2.1.getD 2 0) - 0.15| ≤ 0.001 ∧
    |((1 + 0.1 * Real.sin (5 * 7.5)) -
        (createSampleData "spectrum" 5 0 rand).2.1.getD 3 0) - 0.20| ≤ 0.001 := by
  have hyD : (generateData "spectrum" 5 0 rand randn).2 = dashSpectrumY 5 0 rand := by
    simp [generateData]
  have hyL : (createSampleData "spectrum" 5 0 rand).2.1 = libSpectrumY 5 0 rand := by
    simp [createSampleData]
  refine ⟨?_, ?_, ?_, ?_, ?_, ?_⟩
  · rw [hyD]
    unfold dashSpectrumY
    rw [getD_map_range _ (by norm_num : (1 : ℕ) < 5), xval5_1]
    have e0 : Real.exp (-(2.5 - 2.5 : ℝ) ^ 2 / 0.15) = 1 := by
      norm_num [Real.exp_zero]
    have hA : Real.exp (-(2.5 - 5.0 : ℝ) ^ 2 / 0.15) ≤ 0.001 :=
      exp_le_small (by norm_num)
    have hB : Real.exp (-(2.5 - 7.5 : ℝ) ^ 2 / 0.15) ≤ 0.001 :=
      exp_le_small (by norm_num)
    have hA0 := (Real.exp_pos (-(2.5 - 5.0 : ℝ) ^ 2 / 0.15)).le
    have hB0 := (Real.exp_pos (-(2.5 - 7.5 : ℝ) ^ 2 / 0.15)).le
    rw [e0, abs_le]
    constructor <;> linarith
  · rw [hyD]
    unfold dashSpectrumY
    rw [getD_map_range _ (by norm_num : (2 : ℕ) < 5), xval5_2]
    have e0 : Real.exp (-((5 : ℝ) - 5.0) ^ 2 / 0.15) = 1 := by
      norm_num [Real.exp_zero]
    have hA : Real.exp (-((5 : ℝ) - 2.5) ^ 2 / 0.15) ≤ 0.001 :=
      exp_le_small (by norm_num)
    have hB : Real.exp (-((5 : ℝ) - 7.5) ^ 2 / 0.15) ≤ 0.001 :=
      exp_le_small (by norm_num)
    have hA0 := (Real.exp_pos (-((5 : ℝ) - 2.5) ^ 2 / 0.15)).le
    have hB0 := (Real.exp_pos (-((5 : ℝ) - 7.5) ^ 2 / 0.15)).le
    rw [e0, abs_le]
    constructor <;> linarith
  · rw [hyD]
    unfold dashSpectrumY
    rw [getD_map_range _ (by norm_num : (3 : ℕ) < 5), xval5_3]
    have e0 : Real.exp (-((7.5 : ℝ) - 7.5) ^ 2 / 0.15) = 1 := by
      norm_num [Real.exp_zero]
    have hA : Real.exp (-((7.5 : ℝ) - 2.5) ^ 2 / 0.15) ≤ 0.001 :=
      exp_le_small (by norm_num)
    have hB : Real.exp (-((7.5 : ℝ) - 5.0) ^ 2 / 0.15) ≤ 0.001 :=
      exp_le_small (by norm_num)
    have hA0 := (Real.exp_pos (-((7.5 : ℝ) - 2.5) ^ 2 / 0.15)).le
    have hB0 := (Real.exp_pos (-((7.5 : ℝ) - 5.0) ^ 2 / 0.15)).le
    rw [e0, abs_le]
    constructor <;> linarith
  · rw [hyL]
    unfold libSpectrumY
    rw [getD_map_range _ (by norm_num : (1 : ℕ) < 5), xval5_1]
    have e0 : Real.exp (-(2.5 - 2.5 : ℝ) ^ 2 / 0.1) = 1 := by
      norm_num [Real.exp_zero]
    have hA : Real.exp (-(2.5 - 5.0 : ℝ) ^ 2 / 0.15) ≤ 0.001 :=
      exp_le_small (by norm_num)
    have hB : Real.exp (-(2.5 - 7.5 : ℝ) ^ 2 / 0.12) ≤ 0.001 :=
      exp_le_small (by norm_num)
    have hA0 := (Real.exp_pos (-(2.5 - 5.0 : ℝ) ^ 2 / 0.15)).le
    have hB0 := (Real.exp_pos (-(2.5 - 7.5 : ℝ) ^ 2 / 0.12)).le
    rw [e0, abs_le]
    constructor <;> linarith
  · rw [hyL]
    unfold libSpectrumY
    rw [getD_map_range _ (by norm_num : (2 : ℕ) < 5), xval5_2]
    have e0 : Real.exp (-((5 : ℝ) - 5.0) ^ 2 / 0.15) = 1 := by
      norm_num [Real.exp_zero]
    have hA : Real.exp (-((5 : ℝ) - 2.5) ^ 2 / 0.1) ≤ 0.001 :=
      exp_le_small (by norm_num)
    have hB : Real.exp (-((5 : ℝ) - 7.5) ^ 2 / 0.12) ≤ 0.001 :=
      exp_le_small (by norm_num)
    have hA0 := (Real.exp_pos (-((5 : ℝ) - 2.5) ^ 2 / 0.1)).le
    have hB0 := (Real.exp_pos (-((5 : ℝ) - 7.5) ^ 2 / 0.12)).le
    rw [e0, abs_le]
    constructor <;> linarith
  · rw [hyL]
    unfold libSpectrumY
    rw [getD_map_range _ (by norm_num : (3 : ℕ) < 5), xval5_3]
    have e0 : Real.exp (-((7.5 : ℝ) - 7.5) ^ 2 / 0.12) = 1 := by
      norm_num [Real.exp_zero]
    have hA : Real.exp (-((7.5 : ℝ) - 2.5) ^ 2 / 0.1) ≤ 0.001 :=
      exp_le_small (by norm_num)
    have hB : Real.exp (-((7.5 : ℝ) - 5.0) ^ 2 / 0.15) ≤ 0.001 :=
      exp_le_small (by norm_num)
    have hA0 := (Real.exp_pos (-((7.5 : ℝ) - 2.5) ^ 2 / 0.1)).le
    have hB0 := (Real.exp_pos (-((7.5 : ℝ) - 5.0) ^ 2 / 0.15)).le
    rw [e0, abs_le]
    constructor <;> linarith

/-- C5 witness with the zero random streams. -/
theorem C5_spectrum_depths_witness :
    |((1 + 0.1 * Real.sin (5 * 2.5)) -
        (generateData "spectrum" 5 0 (fun _ => 0) (fun _ => 0)).2.getD 1 0) - 0.25| ≤ 0.001 :=
  (C5_spectrum_depths (fun _ => 0) (fun _ => 0)).1

/-! ### Polynomial bounds on `sin`/`cos` (for the worked sine example) -/

/-- A differentiable function vanishing at `0` with nonnegative derivative on
`[0, ∞)` is nonnegative there. -/
lemma nonneg_on_of_hasDerivAt {f f' : ℝ → ℝ} (hder : ∀ x, HasDerivAt f (f' x) x)
    (h0 : f 0 = 0) (hd : ∀ x, 0 ≤ x → 0 ≤ f' x) {x : ℝ} (hx : 0 ≤ x) :
    0 ≤ f x := by
  have hmono : MonotoneOn f (Set.Ici 0) := by
    apply monotoneOn_of_deriv_nonneg (convex_Ici 0)
    · exact fun y _ => (hder y).continuousAt.continuousWithinAt
    · exact fun y _ => (hder y).differentiableAt.differentiableWithinAt
    · intro y hy
      rw [interior_Ici, Set.mem_Ioi] at hy
      rw [(hder y).deriv]
      exact hd y (le_of_lt hy)
  have h := hmono Set.left_mem_Ici (Set.mem_Ici.2 hx) hx
  rw [h0] at h
  exact h

lemma sin_le_id {x : ℝ} (hx : 0 ≤ x) : Real.sin x ≤ x := by
  have key := nonneg_on_of_hasDerivAt
    (f := fun y => y - Real.sin y)
    (fun y => (hasDerivAt_id y).sub (Real.hasDerivAt_sin y))
    (by simp)
    (fun y _ => by
      have := Real.cos_le_one y
      linarith)
    hx
  have key2 : 0 ≤ x - Real.sin x := key
  linarith

lemma taylor3_le_sin {x : ℝ} (hx : 0 ≤ x) : x - x ^ 3 / 6 ≤ Real.sin x := by
  have key := nonneg_on_of_hasDerivAt
    (f := fun y => Real.sin y - (y - y ^ 3 / 6))
    (fun y => (Real.hasDerivAt_sin y).sub
      ((hasDerivAt_id y).sub ((hasDerivAt_pow 3 y).div_const 6)))
    (by norm_num)
    (fun y _ => by
      have h2 := Real.one_sub_sq_div_two_le_cos (x := y)
      push_cast
      norm_num
      linarith)
    hx
  have key2 : 0 ≤ Real.sin x - (x - x ^ 3 / 6) := key
  linarith

lemma cos_le_taylor4 {x : ℝ} (hx : 0 ≤ x) :
    Real.cos x ≤ 1 - x ^ 2 / 2 + x ^ 4 / 24 := by
  have key := nonneg_on_of_hasDerivAt
    (f := fun y => 1 - y ^ 2 / 2 + y ^ 4 / 24 - Real.cos y)
    (fun y => (((hasDerivAt_const y (1 : ℝ)).sub
      ((hasDerivAt_pow 2 y).div_const 2)).add
      ((hasDerivAt_pow 4 y).div_const 24)).sub (Real.hasDerivAt_cos y))
    (by norm_num)
    (fun y hy => by
      have h2 := taylor3_le_sin hy
      push_cast
      norm_num
      linarith)
    hx
  have key2 : 0 ≤ 1 - x ^ 2 / 2 + x ^ 4 / 24 - Real.cos x := key
  linarith

lemma sin_le_taylor5 {x : ℝ} (hx : 0 ≤ x) :
    Real.sin x ≤ x - x ^ 3 / 6 + x ^ 5 / 120 := by
  have key := nonneg_on_of_hasDerivAt
    (f := fun y => y - y ^ 3 / 6 + y ^ 5 / 120 - Real.sin y)
    (fun y => (((hasDerivAt_id y).sub
      ((hasDerivAt_pow 3 y).div_const 6)).add
      ((hasDerivAt_pow 5 y).div_const 120)).sub (Real.hasDerivAt_sin y))
    (by norm_num)
    (fun y hy => by
      have h2 := cos_le_taylor4 hy
      push_cast
      norm_num
      linarith)
    hx
  have key2 : 0 ≤ x - x ^ 3 / 6 + x ^ 5 / 120 - Real.sin x := key
  linarith

lemma taylor6_le_cos {x : ℝ} (hx : 0 ≤ x) :
    1 - x ^ 2 / 2 + x ^ 4 / 24 - x ^ 6 / 720 ≤ Real.cos x := by
  have key := nonneg_on_of_hasDerivAt
    (f := fun y => Real.cos y - (1 - y ^ 2 / 2 + y ^ 4 / 24 - y ^ 6 / 720))
    (fun y => (Real.hasDerivAt_cos y).sub
      ((((hasDerivAt_const y (1 : ℝ)).sub
        ((hasDerivAt_pow 2 y).div_const 2)).add
        ((hasDerivAt_pow 4 y).div_const 24)).sub
        ((hasDerivAt_pow 6 y).div_const 720)))
    (by norm_num)
    (fun y hy => by
      have h2 := sin_le_taylor5 hy
      push_cast
      norm_num
      linarith)
    hx
  have key2 : 0 ≤ Real.cos x - (1 - x ^ 2 / 2 + x ^ 4 / 24 - x ^ 6 / 720) := key
  linarith

lemma taylor7_le_sin {x : ℝ} (hx : 0 ≤ x) :
    x - x ^ 3 / 6 + x ^ 5 / 120 - x ^ 7 / 5040 ≤ Real.sin x := by
  have key := nonneg_on_of_hasDerivAt
    (f := fun y => Real.sin y - (y - y ^ 3 / 6 + y ^ 5 / 120 - y ^ 7 / 5040))
    (fun y => (Real.hasDerivAt_sin y).sub
      ((((hasDerivAt_id y).sub
        ((hasDerivAt_pow 3 y).div_const 6)).add
        ((hasDerivAt_pow 5 y).div_const 120)).sub
        ((hasDerivAt_pow 7 y).div_const 5040)))
    (by norm_num)
    (fun y hy => by
      have h2 := taylor6_le_cos hy
      push_cast
      norm_num
      linarith)
    hx
  have key2 : 0 ≤ Real.sin x - (x - x ^ 3 / 6 + x ^ 5 / 120 - x ^ 7 / 5040) := key
  linarith

/-- Interval evaluation of `sin` from the degree-5/7 Taylor bounds. -/
lemma sin_interval {l u x : ℝ} (h0 : 0 ≤ l) (h1 : l ≤ x) (h2 : x ≤ u) :
    l - u ^ 3 / 6 + l ^ 5 / 120 - u ^ 7 / 5040 ≤ Real.sin x ∧
      Real.sin x ≤ u - l ^ 3 / 6 + u ^ 5 / 120 := by
  have hx0 : 0 ≤ x := le_trans h0 h1
  have hlow := taylor7_le_sin hx0
  have hup := sin_le_taylor5 hx0
  have p3 : x ^ 3 ≤ u ^ 3 := pow_le_pow_left₀ hx0 h2 3
  have p3' : l ^ 3 ≤ x ^ 3 := pow_le_pow_left₀ h0 h1 3
  have p5 : l ^ 5 ≤ x ^ 5 := pow_le_pow_left₀ h0 h1 5
  have p5' : x ^ 5 ≤ u ^ 5 := pow_le_pow_left₀ hx0 h2 5
  have p7 : x ^ 7 ≤ u ^ 7 := pow_le_pow_left₀ hx0 h2 7
  constructor <;> linarith

/-- Interval evaluation of `cos` from the degree-4/6 Taylor bounds. -/
lemma cos_interval {l u x : ℝ} (h0 : 0 ≤ l) (h1 : l ≤ x) (h2 : x ≤ u) :
    1 - u ^ 2 / 2 + l ^ 4 / 24 - u ^ 6 / 720 ≤ Real.cos x ∧
      Real.cos x ≤ 1 - l ^ 2 / 2 + u ^ 4 / 24 := by
  have hx0 : 0 ≤ x := le_trans h0 h1
  have hlow := taylor6_le_cos hx0
  have hup := cos_le_taylor4 hx0
  have p2 : x ^ 2 ≤ u ^ 2 := pow_le_pow_left₀ hx0 h2 2
  have p2' : l ^ 2 ≤ x ^ 2 := pow_le_pow_left₀ h0 h1 2
  have p4 : l ^ 4 ≤ x ^ 4 := pow_le_pow_left₀ h0 h1 4
  have p4' : x ^ 4 ≤ u ^ 4 := pow_le_pow_left₀ hx0 h2 4
  have p6 : x ^ 6 ≤ u ^ 6 := pow_le_pow_left₀ hx0 h2 6
  constructor <;> linarith

lemma sin_25_bounds : 0.5984 ≤ Real.sin 2.5 ∧ Real.sin 2.5 ≤ 0.5985 := by
  have h1 : (0.641592 : ℝ) ≤ π - 2.5 := by
    have := Real.pi_gt_d6
    linarith
  have h2 : π - 2.5 ≤ 0.641593 := by
    have := Real.pi_lt_d6
    linarith
  obtain ⟨hl, hu⟩ := sin_interval (l := 0.641592) (u := 0.641593) (by norm_num) h1 h2
  rw [Real.sin_pi_sub] at hl hu
  exact ⟨le_trans (by norm_num) hl, le_trans hu (by norm_num)⟩

lemma cos_pi_sub_25_bounds :
    0.8011 ≤ Real.cos (π - 2.5) ∧ Real.cos (π - 2.5) ≤ 0.8013 := by
  have h1 : (0.641592 : ℝ) ≤ π - 2.5 := by
    have := Real.pi_gt_d6
    linarith
  have h2 : π - 2.5 ≤ 0.641593 := by
    have := Real.pi_lt_d6
    linarith
  obtain ⟨hl, hu⟩ := cos_interval (l := 0.641592) (u := 0.641593) (by norm_num) h1 h2
  exact ⟨le_trans (by norm_num) hl, le_trans hu (by norm_num)⟩

lemma sin_5_bounds : -0.96 ≤ Real.sin 5 ∧ Real.sin 5 ≤ -0.958 := by
  have hs : Real.sin 5 = 2 * Real.sin 2.5 * Real.cos 2.5 := by
    have h : (5 : ℝ) = 2 * 2.5 := by norm_num
    rw [h, Real.sin_two_mul]
  have hcos : Real.cos 2.5 = -Real.cos (π - 2.5) := by
    rw [Real.cos_pi_sub]
    ring
  obtain ⟨hs1, hs2⟩ := sin_25_bounds
  obtain ⟨hc1, hc2⟩ := cos_pi_sub_25_bounds
  have hub : Real.sin 2.5 * Real.cos (π - 2.5) ≤ 0.5985 * 0.8013 :=
    mul_le_mul hs2 hc2 (by linarith) (by norm_num)
  have hlb : 0.5984 * 0.8011 ≤ Real.sin 2.5 * Real.cos (π - 2.5) :=
    mul_le_mul hs1 hc1 (by norm_num) (by linarith)
  rw [hs, hcos]
  constructor <;> nlinarith [hub, hlb]

lemma sin_75_bounds : 0.937 ≤ Real.sin 7.5 ∧ Real.sin 7.5 ≤ 0.939 := by
  have ha1 : (0.608407 : ℝ) ≤ 3.75 - π := by
    have := Real.pi_lt_d6
    linarith
  have ha2 : 3.75 - π ≤ 0.608408 := by
    have := Real.pi_gt_d6
    linarith
  obtain ⟨hsl, hsu⟩ := sin_interval (l := 0.608407) (u := 0.608408) (by norm_num) ha1 ha2
  obtain ⟨hcl, hcu⟩ := cos_interval (l := 0.608407) (u := 0.608408) (by norm_num) ha1 ha2
  have hs1 : (0.57156 : ℝ) ≤ Real.sin (3.75 - π) := le_trans (by norm_num) hsl
  have hs2 : Real.sin (3.75 - π) ≤ 0.57157 := le_trans hsu (by norm_num)
  have hc1 : (0.82055 : ℝ) ≤ Real.cos (3.75 - π) := le_trans (by norm_num) hcl
  have hc2 : Real.cos (3.75 - π) ≤ 0.82064 := le_trans hcu (by norm_num)
  have key : Real.sin 7.5 = 2 * Real.sin (3.75 - π) * Real.cos (3.75 - π) := by
    have h1 : (7.5 : ℝ) = 2 * (3.75 - π) + 2 * π := by ring
    rw [h1, Real.sin_add_two_pi, Real.sin_two_mul]
  have hub : Real.sin (3.75 - π) * Real.cos (3.75 - π) ≤ 0.57157 * 0.82064 :=
    mul_le_mul hs2 hc2 (by linarith) (by norm_num)
  have hlb : 0.57156 * 0.82055 ≤ Real.sin (3.75 - π) * Real.cos (3.75 - π) :=
    mul_le_mul hs1 hc1 (by norm_num) (by linarith)
  rw [key]
  constructor <;> nlinarith [hub, hlb]

lemma sin_10_bounds : -0.545 ≤ Real.sin 10 ∧ Real.sin 10 ≤ -0.543 := by
  have hy1 : (0.575221 : ℝ) ≤ 10 - 3 * π := by
    have := Real.pi_lt_d6
    linarith
  have hy2 : 10 - 3 * π ≤ 0.575224 := by
    have := Real.pi_gt_d6
    linarith
  obtain ⟨hl, hu⟩ := sin_interval (l := 0.575221) (u := 0.575224) (by norm_num) hy1 hy2
  have key : Real.sin 10 = -Real.sin (10 - 3 * π) := by
    have h1 : Real.sin (((10 - 3 * π) + π) + 2 * π) = -Real.sin (10 - 3 * π) := by
      rw [Real.sin_add_two_pi, Real.sin_add_pi]
    have h2 : ((10 - 3 * π) + π) + 2 * π = 10 := by ring
    rw [h2] at h1
    exact h1
  rw [key]
  constructor
  · have h := le_trans hu (by norm_num : (0.575224 : ℝ) - 0.575221 ^ 3 / 6 + 0.575224 ^ 5 / 120 ≤ 0.5441)
    linarith
  · have h := le_trans (by norm_num : (0.5440 : ℝ) ≤ 0.575221 - 0.575224 ^ 3 / 6 + 0.575221 ^ 5 / 120 - 0.575224 ^ 7 / 5040) hl
    linarith

lemma linspace_five : linspace 5 = [0, 2.5, 5, 7.5, 10] := by
  unfold linspace
  rw [show List.range 5 = [0, 1, 2, 3, 4] from by rfl]
  simp only [List.map_cons, List.map_nil]
  rw [xval5_0, xval5_1, xval5_2, xval5_3, xval5_4]

lemma dashSine_five (rand : ℕ → ℝ) :
    dashSineY 5 0 rand =
      [Real.sin 0, Real.sin 2.5, Real.sin 5, Real.sin 7.5, Real.sin 10] := by
  unfold dashSineY
  rw [show List.range 5 = [0, 1, 2, 3, 4] from by rfl]
  simp only [List.map_cons, List.map_nil, zero_mul, add_zero]
  rw [xval5_0, xval5_1, xval5_2, xval5_3, xval5_4]

lemma libSine_five (rand : ℕ → ℝ) :
    libSineY 5 0 rand =
      [Real.sin 0, Real.sin 2.5, Real.sin 5, Real.sin 7.5, Real.sin 10] := by
  unfold libSineY
  rw [show List.range 5 = [0, 1, 2, 3, 4] from by rfl]
  simp only [List.map_cons, List.map_nil, zero_mul, add_zero]
  rw [xval5_0, xval5_1, xval5_2, xval5_3, xval5_4]

/-- C2: `generate('sine', n_points=5, noise_level=0)` yields
`x = [0, 2.5, 5, 7.5, 10]` and `y = [sin 0, sin 2.5, sin 5, sin 7.5, sin 10]`
in both the dashboard and the library, and those sines equal
`[0.0, 0.599, -0.959, 0.938, -0.544]` within `10⁻³`. -/
theorem C2_sine_example (rand randn : ℕ → ℝ) :
    (generateData "sine" 5 0 rand randn).1 = [0, 2.5, 5, 7.5, 10] ∧
    (generateData "sine" 5 0 rand randn).2 =
      [Real.sin 0, Real.sin 2.5, Real.sin 5, Real.sin 7.5, Real.sin 10] ∧
    (createSampleData "sine" 5 0 rand).1 = [0, 2.5, 5, 7.5, 10] ∧
    (createSampleData "sine" 5 0 rand).2.1 =
      [Real.sin 0, Real.sin 2.5, Real.sin 5, Real.sin 7.5, Real.sin 10] ∧
    |Real.sin 0 - 0| ≤ 0.001 ∧ |Real.sin 2.5 - 0.599| ≤ 0.001 ∧
    |Real.sin 5 - (-0.959)| ≤ 0.001 ∧ |Real.sin 7.5 - 0.938| ≤ 0.001 ∧
    |Real.sin 10 - (-0.544)| ≤ 0.001 := by
  refine ⟨?_, ?_, ?_, ?_, ?_, ?_, ?_, ?_, ?_⟩
  · show linspace 5 = _
    exact linspace_five
  · have hy : (generateData "sine" 5 0 rand randn).2 = dashSineY 5 0 rand := by
      simp [generateData]
    rw [hy, dashSine_five]
  · show linspace 5 = _
    exact linspace_five
  · have hy : (createSampleData "sine" 5 0 rand).2.1 = libSineY 5 0 rand := by
      simp [createSampleData]
    rw [hy, libSine_five]
  · rw [Real.sin_zero]
    norm_num
  · obtain ⟨h1, h2⟩ := sin_25_bounds
    rw [abs_le]
    constructor <;> linarith
  · obtain ⟨h1, h2⟩ := sin_5_bounds
    rw [abs_le]
    constructor <;> linarith
  · obtain ⟨h1, h2⟩ := sin_75_bounds
    rw [abs_le]
    constructor <;> linarith
  · obtain ⟨h1, h2⟩ := sin_10_bounds
    rw [abs_le]
    constructor <;> linarith

/-- C2 witness with the zero random streams. -/
theorem C2_sine_example_witness :
    (generateData "sine" 5 0 (fun _ => 0) (fun _ => 0)).1 = [0, 2.5, 5, 7.5, 10] ∧
    |Real.sin 2.5 - 0.599| ≤ 0.001 :=
  ⟨(C2_sine_example (fun _ => 0) (fun _ => 0)).1,
   (C2_sine_example (fun _ => 0) (fun _ => 0)).2.2.2.2.2.1⟩

end AstroKit
